import Mathlib

/-!
# Verification of `PDF-compresser.py`

A shallow embedding of the single-file PDF compression tool
(`src/PDF-compresser.py`) and proofs of the specification claims about it.

The program wraps the external Ghostscript engine: it locates the engine
executable (`find_gs`), builds an ordered command-line argument list from a
quality preset and an optional DPI value (`compress_pdf`), runs the engine as
a subprocess, and a CLI entry point (`main`, embedded as `main_model`) validates the input path and
prints size statistics.

The external environment (filesystem existence checks, `shutil.which`
lookups, and `subprocess.run`) is modelled by an explicit `Env` record of
oracle functions.  Paths are modelled as plain strings (POSIX-style, `/`
separated).  Python exceptions are modelled by an explicit error type
`PyError`; a raised exception becomes an `Except.error` result.  Side
effects performed by the program itself (directory creation, process
spawning) are recorded in an explicit event trace.
-/

deriving instance DecidableEq for Except

/-- Result of `subprocess.run(cmd, capture_output=True, text=True)`:
the child's exit code and its captured output streams. -/
structure RunResult where
  returncode : Int
  stdout : String
  stderr : String
deriving DecidableEq

/-- The external environment the program consults:
`fsExists p` models `Path(p).exists()`, `which n` models `shutil.which(n)`
(`none` when the name is not on the command-search path), and `run cmd`
models the outcome of `subprocess.run(cmd, ...)`. -/
structure Env where
  fsExists : String → Bool
  which : String → Option String
  run : List String → RunResult

/-- The Python exceptions the program can raise. -/
inductive PyError where
  | fileNotFound (msg : String)
  | valueError (msg : String)
  | runtimeError (msg : String)
  | systemExit (msg : String)
deriving DecidableEq

/-- The filesystem/process side effects the program itself performs.
`mkdirParent p` records `Path(p).parent.mkdir(parents=True, exist_ok=True)`;
`spawn cmd` records `subprocess.run(cmd, ...)`. -/
inductive Event where
  | mkdirParent (outputPath : String)
  | spawn (cmd : List String)
deriving DecidableEq

/-- Python's `str.lower()` (modelled on its ASCII behaviour), written as a
structurally recursive map over the character list so that it reduces. -/
def pyLower (s : String) : String :=
  String.mk (s.data.map Char.toLower)

/-- The insertion-ordered key list of the `QUALITY_MAP` dict literal. -/
def presetNames : List String :=
  ["screen", "ebook", "printer", "prepress", "default"]

/-- `QUALITY_MAP.get k`: the dict literal mapping preset names to
Ghostscript `-dPDFSETTINGS` tokens; `none` models a missing key. -/
def QUALITY_MAP (k : String) : Option String :=
  if k = "screen" then some "/screen"
  else if k = "ebook" then some "/ebook"
  else if k = "printer" then some "/printer"
  else if k = "prepress" then some "/prepress"
  else if k = "default" then some "/default"
  else none

/-- The error message raised when no Ghostscript binary is discoverable. -/
def gsNotFoundMsg : String :=
  "Ghostscript not found. Install it and/or add its bin folder to PATH (so gswin64c.exe is discoverable)."

/-- One step of the discovery loop body: `p = shutil.which(name); if p: return p`.
Python treats an empty string as falsy, so a (contractually impossible)
empty result from `which` would be skipped. -/
def whichTruthy (env : Env) (name : String) : Option String :=
  match env.which name with
  | some p => if p ≠ "" then some p else none
  | none => none

/-- The auto-discovery loop of `find_gs`: try the candidate binary names
`gswin64c`, `gswin32c`, `gs` in order and return the first hit, else raise
`FileNotFoundError`. -/
def autoResolve (env : Env) : Except PyError String :=
  match whichTruthy env "gswin64c" with
  | some p => .ok p
  | none =>
    match whichTruthy env "gswin32c" with
    | some p => .ok p
    | none =>
      match whichTruthy env "gs" with
      | some p => .ok p
      | none => .error (.fileNotFound gsNotFoundMsg)

/-- `find_gs(explicit)`: if `explicit` is truthy (a non-`None`, non-empty
string), return it when it exists on the filesystem and raise
`FileNotFoundError` otherwise; if `explicit` is falsy (`None` or the empty
string, which Python's `if explicit:` treats alike), fall through to
auto-discovery. -/
def find_gs (explicit : Option String) (env : Env) : Except PyError String :=
  match explicit with
  | some e =>
    if e ≠ "" then
      if env.fsExists e then .ok e
      else .error (.fileNotFound ("Ghostscript not found at: " ++ e))
    else autoResolve env
  | none => autoResolve env

/-- The six downsampling flags inserted when `dpi is not None`. -/
def dpiFlags (dpi : Int) : List String :=
  ["-dDownsampleColorImages=true",
   "-dColorImageResolution=" ++ toString dpi,
   "-dDownsampleGrayImages=true",
   "-dGrayImageResolution=" ++ toString dpi,
   "-dDownsampleMonoImages=true",
   "-dMonoImageResolution=" ++ toString dpi]

/-- The assembled Ghostscript command line of `compress_pdf`: the base
twelve-element list, with the six downsampling flags spliced in at index
`len(cmd) - 2` (i.e. just before the output flag and the input path) when a
DPI value is supplied, exactly as `cmd[insert_at:insert_at] = extra` does. -/
def buildCmd (gs input_pdf output_pdf preset_gs : String) (dpi : Option Int) :
    List String :=
  let cmd : List String :=
    [gs,
     "-sDEVICE=pdfwrite",
     "-dCompatibilityLevel=1.4",
     "-dPDFSETTINGS=" ++ preset_gs,
     "-dNOPAUSE",
     "-dBATCH",
     "-dQUIET",
     "-dDetectDuplicateImages=true",
     "-dCompressFonts=true",
     "-dSubsetFonts=true",
     "-sOutputFile=" ++ output_pdf,
     input_pdf]
  match dpi with
  | none => cmd
  | some d =>
    let insert_at := cmd.length - 2
    cmd.take insert_at ++ dpiFlags d ++ cmd.drop insert_at

/-- Python's `sep.join(xs)`, written structurally so that it reduces. -/
def pyJoin (sep : String) : List String → String
  | [] => ""
  | [x] => x
  | x :: y :: xs => x ++ sep ++ pyJoin sep (y :: xs)

/-- The `ValueError` message for an unknown preset:
`f"Unknown preset '{preset}'. Choose: {', '.join(QUALITY_MAP)}"`
(joining the dict's keys in insertion order). -/
def unknownPresetMsg (preset : String) : String :=
  "Unknown preset '" ++ preset ++ "'. Choose: " ++ pyJoin ", " presetNames

/-- Python's `str.strip()` (on its ASCII-whitespace behaviour): drop
whitespace from both ends, written structurally so that it reduces. -/
def pyStrip (s : String) : String :=
  String.mk
    (((s.data.dropWhile Char.isWhitespace).reverse.dropWhile
        Char.isWhitespace).reverse)

/-- The `RuntimeError` message for a non-zero engine exit: embeds the
stripped captured stderr and stdout verbatim. -/
def gsFailMsg (stderr stdout : String) : String :=
  "Ghostscript failed.\nSTDERR:\n" ++ pyStrip stderr ++ "\n\nSTDOUT:\n" ++
    pyStrip stdout

/-- `compress_pdf(input_pdf, output_pdf, preset, dpi, gs_path)`.
Returns the Python outcome (`.ok ()` for a normal return, `.error` for a
raised exception) paired with the list of subprocess command lines spawned
during the call. -/
def compress_pdf (env : Env) (input_pdf output_pdf : String)
    (preset : String) (dpi : Option Int) (gs_path : Option String) :
    Except PyError Unit × List (List String) :=
  match find_gs gs_path env with
  | .error e => (.error e, [])
  | .ok gs =>
    match QUALITY_MAP (pyLower preset) with
    | none => (.error (.valueError (unknownPresetMsg preset)), [])
    | some preset_gs =>
      let cmd := buildCmd gs input_pdf output_pdf preset_gs dpi
      let result := env.run cmd
      if result.returncode ≠ 0 then
        (.error (.runtimeError (gsFailMsg result.stderr result.stdout)), [cmd])
      else
        (.ok (), [cmd])

/-- Python's `str.rfind('.')` over a character list: the index of the last
`'.'`, or `-1` when absent. -/
def rfindDot (cs : List Char) : Int :=
  (cs.foldl
    (fun acc c => (if c = '.' then (acc.2 : Int) else acc.1, acc.2 + 1))
    ((-1 : Int), (0 : Nat))).1

/-- `PurePath.suffix` of a POSIX-style path string (assumed normalized, as
produced by `Path.resolve()`): the extension (including the dot) of the
final component — the characters after the last `/` — and empty when that
component has no dot, starts with its only dot, or ends with the dot
(CPython: `name[i:] if 0 < i < len(name) - 1 else ""`). -/
def pySuffix (p : String) : String :=
  let name := p.data.foldl (fun acc c => if c = '/' then [] else acc ++ [c]) []
  let i := rfindDot name
  if 0 < i ∧ i < (name.length : Int) - 1 then
    String.mk (name.drop i.toNat)
  else ""

/-- The `SystemExit` message of the CLI input check. -/
def badInputMsg (inp : String) : String :=
  "Input must be an existing PDF: " ++ inp

/-- The CLI entry point `main()`, after argument parsing and path
resolution: `input` and `output` are the already-resolved path strings.
It unconditionally creates the output's parent directories, then aborts
with `SystemExit` unless the input exists and has a (case-insensitive)
`.pdf` suffix, and otherwise calls `compress_pdf`.  Returns the outcome
paired with the trace of filesystem/process side effects performed. -/
def main_model (env : Env) (input output : String) (preset : String)
    (dpi : Option Int) (gs_path : Option String) :
    Except PyError Unit × List Event :=
  let events0 : List Event := [Event.mkdirParent output]
  if env.fsExists input = false ∨ pyLower (pySuffix input) ≠ ".pdf" then
    (.error (.systemExit (badInputMsg input)), events0)
  else
    let r := compress_pdf env input output preset dpi gs_path
    (r.1, events0 ++ r.2.map Event.spawn)

/-- Whether `pat` occurs as a contiguous run inside `s` (on char lists). -/
def containsSub (pat : List Char) : List Char → Bool
  | [] => pat.isEmpty
  | c :: rest => pat.isPrefixOf (c :: rest) || containsSub pat rest

/-- `pat` occurs as a contiguous substring of `s`. -/
def substrOccurs (pat s : String) : Bool :=
  containsSub pat.data s.data

/-- Whether a trace event is a subprocess invocation. -/
def isSpawnEvent : Event → Bool
  | .spawn _ => true
  | .mkdirParent _ => false

/-- Modelled from the spec's words, as the refinement target for the
auto-discovery claim: search the command-search path for the candidate
binary names in the fixed priority order `gswin64c`, `gswin32c`, `gs` and
return the first match found; if no candidate resolves, fail with the
configuration error instructing the user to install the engine. -/
def resolveAutoSpec (env : Env) : Except PyError String :=
  match env.which "gswin64c" with
  | some p => .ok p
  | none =>
    match env.which "gswin32c" with
    | some p => .ok p
    | none =>
      match env.which "gs" with
      | some p => .ok p
      | none => .error (.fileNotFound gsNotFoundMsg)

/-- A concrete environment in which every path exists, `gs` is on the
search path, and the engine always exits with status 0. -/
def envHappy : Env where
  fsExists := fun _ => true
  which := fun _ => some "/usr/bin/gs"
  run := fun _ => ⟨0, "", ""⟩

/-- A concrete environment in which no path exists and no binary is on the
search path. -/
def envBare : Env where
  fsExists := fun _ => false
  which := fun _ => none
  run := fun _ => ⟨0, "", ""⟩

/-- A concrete environment in which no path exists on the filesystem but
`gswin64c` is on the search path. -/
def envAuto64 : Env where
  fsExists := fun _ => false
  which := fun n => if n = "gswin64c" then some "/opt/gs" else none
  run := fun _ => ⟨0, "", ""⟩

/-- A concrete environment in which no path exists on the filesystem and
only `gswin32c` is on the search path. -/
def envAuto32 : Env where
  fsExists := fun _ => false
  which := fun n => if n = "gswin32c" then some "/bin/gswin32c" else none
  run := fun _ => ⟨0, "", ""⟩

/-- A concrete environment in which every path exists, `gs` is on the
search path, and the engine exits with status 1 writing
`error: corrupt xref` to its error stream. -/
def envXref : Env where
  fsExists := fun _ => true
  which := fun _ => some "/usr/bin/gs"
  run := fun _ => ⟨1, "", "error: corrupt xref\n"⟩

/-- C1: for every valid preset and any input/output paths, `compress_pdf`
with no target resolution spawns exactly one subprocess, whose argument
list is exactly: engine executable, `-sDEVICE=pdfwrite`,
`-dCompatibilityLevel=1.4`, the resolved preset token, the
no-pause/batch/quiet execution flags, the duplicate-image-detection flag,
the font compression and subsetting flags, the output-file flag, and the
input file path — with the output-file flag immediately preceding the
input path. -/
theorem compress_pdf_base_cmd (env : Env) (inp out preset tok gs : String)
    (gsp : Option String)
    (h1 : find_gs gsp env = .ok gs)
    (h2 : QUALITY_MAP (pyLower preset) = some tok) :
    (compress_pdf env inp out preset none gsp).2 =
      [[gs,
        "-sDEVICE=pdfwrite",
        "-dCompatibilityLevel=1.4",
        "-dPDFSETTINGS=" ++ tok,
        "-dNOPAUSE",
        "-dBATCH",
        "-dQUIET",
        "-dDetectDuplicateImages=true",
        "-dCompressFonts=true",
        "-dSubsetFonts=true",
        "-sOutputFile=" ++ out,
        inp]] := by
  simp only [compress_pdf, h1, h2, buildCmd]
  split <;> rfl

/-- Witness for C1 at a concrete environment, preset `ebook`, no DPI. -/
theorem compress_pdf_base_cmd_witness :
    find_gs none envHappy = .ok "/usr/bin/gs" ∧
    QUALITY_MAP (pyLower "ebook") = some "/ebook" ∧
    (compress_pdf envHappy "doc.pdf" "out.pdf" "ebook" none none).2 =
      [["/usr/bin/gs",
        "-sDEVICE=pdfwrite",
        "-dCompatibilityLevel=1.4",
        "-dPDFSETTINGS=" ++ "/ebook",
        "-dNOPAUSE",
        "-dBATCH",
        "-dQUIET",
        "-dDetectDuplicateImages=true",
        "-dCompressFonts=true",
        "-dSubsetFonts=true",
        "-sOutputFile=" ++ "out.pdf",
        "doc.pdf"]] :=
  ⟨by decide, by decide,
    compress_pdf_base_cmd envHappy "doc.pdf" "out.pdf" "ebook" "/ebook"
      "/usr/bin/gs" none (by decide) (by decide)⟩

/-- C2: for every supplied target resolution, `compress_pdf` spawns exactly
one subprocess whose argument list is the base list with exactly six
additional flags — enable-downsampling and set-resolution for the color,
grayscale, and monochrome image classes — spliced in strictly before the
output-file flag and the input path, the output-file flag still immediately
preceding the input path. -/
theorem compress_pdf_dpi_cmd (env : Env) (inp out preset tok gs : String)
    (gsp : Option String) (d : Int)
    (h1 : find_gs gsp env = .ok gs)
    (h2 : QUALITY_MAP (pyLower preset) = some tok) :
    (compress_pdf env inp out preset (some d) gsp).2 =
      [[gs,
        "-sDEVICE=pdfwrite",
        "-dCompatibilityLevel=1.4",
        "-dPDFSETTINGS=" ++ tok,
        "-dNOPAUSE",
        "-dBATCH",
        "-dQUIET",
        "-dDetectDuplicateImages=true",
        "-dCompressFonts=true",
        "-dSubsetFonts=true",
        "-dDownsampleColorImages=true",
        "-dColorImageResolution=" ++ toString d,
        "-dDownsampleGrayImages=true",
        "-dGrayImageResolution=" ++ toString d,
        "-dDownsampleMonoImages=true",
        "-dMonoImageResolution=" ++ toString d,
        "-sOutputFile=" ++ out,
        inp]] := by
  simp only [compress_pdf, h1, h2, buildCmd, dpiFlags]
  split <;> rfl

/-- Witness for C2 at a concrete environment, preset `screen`, 150 DPI
(end-to-end scenario 2 of the spec). -/
theorem compress_pdf_dpi_cmd_witness :
    find_gs none envHappy = .ok "/usr/bin/gs" ∧
    QUALITY_MAP (pyLower "screen") = some "/screen" ∧
    (compress_pdf envHappy "doc.pdf" "out.pdf" "screen" (some 150) none).2 =
      [["/usr/bin/gs",
        "-sDEVICE=pdfwrite",
        "-dCompatibilityLevel=1.4",
        "-dPDFSETTINGS=" ++ "/screen",
        "-dNOPAUSE",
        "-dBATCH",
        "-dQUIET",
        "-dDetectDuplicateImages=true",
        "-dCompressFonts=true",
        "-dSubsetFonts=true",
        "-dDownsampleColorImages=true",
        "-dColorImageResolution=" ++ toString (150 : Int),
        "-dDownsampleGrayImages=true",
        "-dGrayImageResolution=" ++ toString (150 : Int),
        "-dDownsampleMonoImages=true",
        "-dMonoImageResolution=" ++ toString (150 : Int),
        "-sOutputFile=" ++ "out.pdf",
        "doc.pdf"]] :=
  ⟨by decide, by decide,
    compress_pdf_dpi_cmd envHappy "doc.pdf" "out.pdf" "screen" "/screen"
      "/usr/bin/gs" none 150 (by decide) (by decide)⟩

/-- Helper: with a resolved engine and a valid preset, the one spawned
command is `buildCmd`. -/
lemma compress_pdf_spawns_eq (env : Env) (inp out preset tok gs : String)
    (dpi : Option Int) (gsp : Option String)
    (h1 : find_gs gsp env = .ok gs)
    (h2 : QUALITY_MAP (pyLower preset) = some tok) :
    (compress_pdf env inp out preset dpi gsp).2 =
      [buildCmd gs inp out tok dpi] := by
  simp only [compress_pdf, h1, h2]
  split <;> rfl

/-- Helper: the assembled command with a DPI value, written out. -/
lemma buildCmd_some_eq (gs inp out tok : String) (d : Int) :
    buildCmd gs inp out tok (some d) =
      [gs,
       "-sDEVICE=pdfwrite",
       "-dCompatibilityLevel=1.4",
       "-dPDFSETTINGS=" ++ tok,
       "-dNOPAUSE",
       "-dBATCH",
       "-dQUIET",
       "-dDetectDuplicateImages=true",
       "-dCompressFonts=true",
       "-dSubsetFonts=true",
       "-dDownsampleColorImages=true",
       "-dColorImageResolution=" ++ toString d,
       "-dDownsampleGrayImages=true",
       "-dGrayImageResolution=" ++ toString d,
       "-dDownsampleMonoImages=true",
       "-dMonoImageResolution=" ++ toString d,
       "-sOutputFile=" ++ out,
       inp] := rfl

/-- Helper: a key not among the five preset names is absent from
`QUALITY_MAP`. -/
lemma QUALITY_MAP_eq_none (s : String) (h : s ∉ presetNames) :
    QUALITY_MAP s = none := by
  simp only [presetNames, List.mem_cons, List.not_mem_nil, or_false,
    not_or] at h
  obtain ⟨e1, e2, e3, e4, e5⟩ := h
  simp [QUALITY_MAP, e1, e2, e3, e4, e5]

/-- C3: for every preset string whose lowercasing is not one of the five
preset names, `compress_pdf` (with the engine resolvable) fails with the
`ValueError` whose message names the unknown preset and lists all five
valid choices, and spawns no subprocess. -/
theorem compress_pdf_invalid_preset (env : Env) (inp out preset gs : String)
    (dpi : Option Int) (gsp : Option String)
    (h1 : find_gs gsp env = .ok gs)
    (h2 : pyLower preset ∉ presetNames) :
    compress_pdf env inp out preset dpi gsp =
      (.error (.valueError (unknownPresetMsg preset)), []) ∧
    unknownPresetMsg preset =
      "Unknown preset '" ++ preset ++ "'. Choose: " ++ pyJoin ", " presetNames ∧
    pyJoin ", " presetNames = "screen, ebook, printer, prepress, default" ∧
    (presetNames.all fun n =>
      substrOccurs n "screen, ebook, printer, prepress, default") = true := by
  refine ⟨?_, rfl, by decide, by decide⟩
  simp only [compress_pdf, h1, QUALITY_MAP_eq_none _ h2]

/-- Witness for C3 at the invalid preset `bogus` (end-to-end scenario 3). -/
theorem compress_pdf_invalid_preset_witness :
    compress_pdf envHappy "doc.pdf" "out.pdf" "bogus" none none =
      (.error (.valueError (unknownPresetMsg "bogus")), []) ∧
    unknownPresetMsg "bogus" =
      "Unknown preset '" ++ "bogus" ++ "'. Choose: " ++ pyJoin ", " presetNames ∧
    pyJoin ", " presetNames = "screen, ebook, printer, prepress, default" ∧
    (presetNames.all fun n =>
      substrOccurs n "screen, ebook, printer, prepress, default") = true :=
  compress_pdf_invalid_preset envHappy "doc.pdf" "out.pdf" "bogus" "/usr/bin/gs"
    none none (by decide) (by decide)

/-- C5: every string whose lowercasing is one of the five preset names maps
to exactly one configuration token, and any string with the same
lowercasing yields the same token. -/
theorem QUALITY_MAP_total_det (s : String) (h : pyLower s ∈ presetNames) :
    ∃ tok : String, QUALITY_MAP (pyLower s) = some tok ∧
      (∀ tok' : String, QUALITY_MAP (pyLower s) = some tok' → tok' = tok) ∧
      ∀ t : String, pyLower t = pyLower s → QUALITY_MAP (pyLower t) = some tok := by
  simp only [presetNames, List.mem_cons, List.not_mem_nil, or_false] at h
  rcases h with h | h | h | h | h <;> rw [h] <;>
    exact ⟨_, rfl,
      fun tok' ht => by simp only [QUALITY_MAP] at ht; simp_all,
      fun t ht => by rw [ht]; rfl⟩

/-- Witness for C5 at the mixed-case preset name `EBook`. -/
theorem QUALITY_MAP_total_det_witness :
    ∃ tok : String, QUALITY_MAP (pyLower "EBook") = some tok ∧
      (∀ tok' : String, QUALITY_MAP (pyLower "EBook") = some tok' → tok' = tok) ∧
      ∀ t : String, pyLower t = pyLower "EBook" →
        QUALITY_MAP (pyLower t) = some tok :=
  QUALITY_MAP_total_det "EBook" (by decide)

/-- C10: `compress_pdf` applies no positivity check to the target
resolution: for every integer DPI value, including zero and negative
values, the spawned command embeds the six downsampling flags with that
value printed unchanged, and the CLI (`main_model`, whose `--dpi` option is
any integer) passes such a value straight through to the same command. -/
theorem compress_pdf_dpi_unchecked (env : Env) (inp out preset tok gs : String)
    (gsp : Option String) (d : Int)
    (h1 : find_gs gsp env = .ok gs)
    (h2 : QUALITY_MAP (pyLower preset) = some tok)
    (h3 : env.fsExists inp = true)
    (h4 : pyLower (pySuffix inp) = ".pdf") :
    ∃ cmd : List String,
      (compress_pdf env inp out preset (some d) gsp).2 = [cmd] ∧
      (main_model env inp out preset (some d) gsp).2 =
        [Event.mkdirParent out, Event.spawn cmd] ∧
      "-dDownsampleColorImages=true" ∈ cmd ∧
      ("-dColorImageResolution=" ++ toString d) ∈ cmd ∧
      "-dDownsampleGrayImages=true" ∈ cmd ∧
      ("-dGrayImageResolution=" ++ toString d) ∈ cmd ∧
      "-dDownsampleMonoImages=true" ∈ cmd ∧
      ("-dMonoImageResolution=" ++ toString d) ∈ cmd := by
  have hspawn :=
    compress_pdf_spawns_eq env inp out preset tok gs (some d) gsp h1 h2
  have hcond : ¬(env.fsExists inp = false ∨ pyLower (pySuffix inp) ≠ ".pdf") := by
    simp [h3, h4]
  refine ⟨buildCmd gs inp out tok (some d), hspawn, ?_, ?_, ?_, ?_, ?_, ?_, ?_⟩
  · simp only [main_model]
    rw [if_neg hcond]
    simp [hspawn]
  all_goals rw [buildCmd_some_eq]; simp

/-- Witness for C10 at the DPI value 0. -/
theorem compress_pdf_dpi_unchecked_witness :
    ∃ cmd : List String,
      (compress_pdf envHappy "doc.pdf" "out.pdf" "ebook" (some 0) none).2 =
        [cmd] ∧
      (main_model envHappy "doc.pdf" "out.pdf" "ebook" (some 0) none).2 =
        [Event.mkdirParent "out.pdf", Event.spawn cmd] ∧
      "-dDownsampleColorImages=true" ∈ cmd ∧
      ("-dColorImageResolution=" ++ toString (0 : Int)) ∈ cmd ∧
      "-dDownsampleGrayImages=true" ∈ cmd ∧
      ("-dGrayImageResolution=" ++ toString (0 : Int)) ∈ cmd ∧
      "-dDownsampleMonoImages=true" ∈ cmd ∧
      ("-dMonoImageResolution=" ++ toString (0 : Int)) ∈ cmd :=
  compress_pdf_dpi_unchecked envHappy "doc.pdf" "out.pdf" "ebook" "/ebook"
    "/usr/bin/gs" none 0 (by decide) (by decide) (by decide) (by decide)

/-- C4: with the engine resolved and a valid preset, `compress_pdf` fails
with a runtime error if and only if the engine process exits non-zero; in
that case the error message is exactly `gsFailMsg` applied to the captured
stderr and stdout (which embeds both, trimmed of surrounding whitespace);
on zero exit it returns no value; and with an auto-discovered engine its
entire outcome is independent of the filesystem-existence oracle — in
particular it never verifies that the output file exists. -/
theorem compress_pdf_engine_exit (env : Env) (inp out preset tok gs : String)
    (dpi : Option Int) (gsp : Option String)
    (h1 : find_gs gsp env = .ok gs)
    (h2 : QUALITY_MAP (pyLower preset) = some tok) :
    ((compress_pdf env inp out preset dpi gsp).1 = .ok () ↔
      (env.run (buildCmd gs inp out tok dpi)).returncode = 0) ∧
    ((env.run (buildCmd gs inp out tok dpi)).returncode ≠ 0 →
      (compress_pdf env inp out preset dpi gsp).1 =
        .error (.runtimeError
          (gsFailMsg (env.run (buildCmd gs inp out tok dpi)).stderr
            (env.run (buildCmd gs inp out tok dpi)).stdout))) ∧
    (∀ f : String → Bool,
      compress_pdf ⟨f, env.which, env.run⟩ inp out preset dpi none =
        compress_pdf env inp out preset dpi none) := by
  refine ⟨?_, fun hc => ?_, fun f => rfl⟩
  · by_cases hc : (env.run (buildCmd gs inp out tok dpi)).returncode = 0 <;>
      simp [compress_pdf, h1, h2, hc]
  · simp [compress_pdf, h1, h2, hc]

/-- Witness for C4 at a concrete environment in which the engine exits
with status 1 writing `error: corrupt xref` to its error stream
(end-to-end scenario 4). -/
theorem compress_pdf_engine_exit_witness :
    (envXref.run
        (buildCmd "/usr/bin/gs" "doc.pdf" "out.pdf" "/ebook" none)).returncode
      ≠ 0 ∧
    (compress_pdf envXref "doc.pdf" "out.pdf" "ebook" none none).1 =
      .error (.runtimeError (gsFailMsg "error: corrupt xref\n" "")) ∧
    substrOccurs "error: corrupt xref"
      (gsFailMsg "error: corrupt xref\n" "") = true :=
  ⟨by decide,
   (compress_pdf_engine_exit envXref "doc.pdf" "out.pdf" "ebook" "/ebook"
      "/usr/bin/gs" none none (by decide) (by decide)).2.1 (by decide),
   by decide⟩

/-- C6 counterexample: the explicit engine path `""` (the empty string,
which Python's `if explicit:` treats as not supplied) does not exist on
the filesystem, yet `find_gs` does not fail with a "not found" error — it
attempts auto-discovery and succeeds, returning a different path. -/
theorem find_gs_empty_explicit_cex :
    envAuto64.fsExists "" = false ∧
    find_gs (some "") envAuto64 = .ok "/opt/gs" :=
  ⟨rfl, by decide⟩

/-- C6 (amended): for every NON-EMPTY explicit engine path, `find_gs`
returns exactly that path when it exists on the filesystem, fails with the
"not found" error naming the supplied path when it does not, and in either
case never consults the command-search-path oracle (no auto-discovery). -/
theorem find_gs_explicit (env : Env) (e : String) (he : e ≠ "") :
    (env.fsExists e = true → find_gs (some e) env = .ok e) ∧
    (env.fsExists e = false →
      find_gs (some e) env =
        .error (.fileNotFound ("Ghostscript not found at: " ++ e))) ∧
    ∀ w : String → Option String,
      find_gs (some e) ⟨env.fsExists, w, env.run⟩ = find_gs (some e) env := by
  refine ⟨fun hx => ?_, fun hx => ?_, fun w => ?_⟩
  · simp [find_gs, he, hx]
  · simp [find_gs, he, hx]
  · simp [find_gs, he]

/-- Witness for C6 (amended) at an existing explicit path. -/
theorem find_gs_explicit_witness :
    ("/opt/gs" : String) ≠ "" ∧
    envHappy.fsExists "/opt/gs" = true ∧
    find_gs (some "/opt/gs") envHappy = .ok "/opt/gs" :=
  ⟨by decide, rfl,
   (find_gs_explicit envHappy "/opt/gs" (by decide)).1 rfl⟩

/-- C7: with no explicit path, `find_gs` coincides with the spec-side
first-match search over the candidate names `gswin64c`, `gswin32c`, `gs`
in that priority order (assuming the `shutil.which` contract that a found
path is never the empty string); when no candidate resolves it fails with
the configuration error, whose text instructs the user to install the
engine and make it discoverable on `PATH`. -/
theorem find_gs_auto_order (env : Env)
    (hw : ∀ n p, env.which n = some p → p ≠ "") :
    find_gs none env = resolveAutoSpec env ∧
    (env.which "gswin64c" = none → env.which "gswin32c" = none →
      env.which "gs" = none →
      find_gs none env = .error (.fileNotFound gsNotFoundMsg)) ∧
    substrOccurs "Install it" gsNotFoundMsg = true ∧
    substrOccurs "PATH" gsNotFoundMsg = true := by
  refine ⟨?_, fun ha hb hc => ?_, by decide, by decide⟩
  · rcases hw64 : env.which "gswin64c" with _ | p64
    · rcases hw32 : env.which "gswin32c" with _ | p32
      · rcases hwgs : env.which "gs" with _ | pgs
        · simp [find_gs, resolveAutoSpec, autoResolve, whichTruthy,
            hw64, hw32, hwgs]
        · simp [find_gs, resolveAutoSpec, autoResolve, whichTruthy,
            hw64, hw32, hwgs, hw _ _ hwgs]
      · simp [find_gs, resolveAutoSpec, autoResolve, whichTruthy,
          hw64, hw32, hw _ _ hw32]
    · simp [find_gs, resolveAutoSpec, autoResolve, whichTruthy,
        hw64, hw _ _ hw64]
  · simp [find_gs, autoResolve, whichTruthy, ha, hb, hc]

/-- Witness for C7 at an environment where only the second-priority name
`gswin32c` is on the search path. -/
theorem find_gs_auto_order_witness :
    find_gs none envAuto32 = resolveAutoSpec envAuto32 ∧
    find_gs none envAuto32 = .ok "/bin/gswin32c" :=
  ⟨(find_gs_auto_order envAuto32 (by
      intro n p hp
      by_cases hn : n = "gswin32c"
      · subst hn
        simp [envAuto32] at hp
        subst hp
        decide
      · simp [envAuto32, hn] at hp)).1,
   by decide⟩

/-- C8: whenever the (resolved) input path does not exist or its
lower-cased extension is not `.pdf`, the CLI aborts with a `SystemExit`
carrying a descriptive message and spawns no subprocess — the compression
operation is never invoked. -/
theorem main_input_validation (env : Env) (inp out preset : String)
    (dpi : Option Int) (gsp : Option String)
    (h : env.fsExists inp = false ∨ pyLower (pySuffix inp) ≠ ".pdf") :
    (main_model env inp out preset dpi gsp).1 =
      .error (.systemExit (badInputMsg inp)) ∧
    badInputMsg inp = "Input must be an existing PDF: " ++ inp ∧
    ∀ c : List String,
      Event.spawn c ∉ (main_model env inp out preset dpi gsp).2 := by
  have hm : main_model env inp out preset dpi gsp =
      (.error (.systemExit (badInputMsg inp)), [Event.mkdirParent out]) := by
    simp only [main_model]
    rw [if_pos h]
  rw [hm]
  exact ⟨rfl, rfl, by simp⟩

/-- Witness for C8 at a concrete environment with a missing input file. -/
theorem main_input_validation_witness :
    (main_model envBare "missing.pdf" "out.pdf" "ebook" none none).1 =
      .error (.systemExit (badInputMsg "missing.pdf")) ∧
    Event.spawn [] ∉
      (main_model envBare "missing.pdf" "out.pdf" "ebook" none none).2 :=
  ⟨(main_input_validation envBare "missing.pdf" "out.pdf" "ebook" none none
      (Or.inl rfl)).1,
   (main_input_validation envBare "missing.pdf" "out.pdf" "ebook" none none
      (Or.inl rfl)).2.2 []⟩

/-- C9 counterexample: on the failure path where the input file does not
exist, the CLI has already created the output path's parent directories —
a filesystem side effect performed by this system itself on a failing
invocation. -/
theorem main_failure_side_effect_cex :
    (main_model envBare "missing.pdf" "out/dir/o.pdf" "ebook" none none).1 =
      .error (.systemExit (badInputMsg "missing.pdf")) ∧
    Event.mkdirParent "out/dir/o.pdf" ∈
      (main_model envBare "missing.pdf" "out/dir/o.pdf" "ebook" none none).2 := by
  decide

/-- C9 (amended): every invocation spawns at most one subprocess — exactly
one when the operation succeeds — and the only other side effect the
system itself performs is creating the output path's parent directories,
which the CLI does unconditionally before validation (hence also on
failure paths); no other intermediate files are created. -/
theorem main_side_effects (env : Env) (inp out preset : String)
    (dpi : Option Int) (gsp : Option String) :
    ((main_model env inp out preset dpi gsp).2.filter isSpawnEvent).length
      ≤ 1 ∧
    ((main_model env inp out preset dpi gsp).1 = .ok () →
      ((main_model env inp out preset dpi gsp).2.filter isSpawnEvent).length
        = 1) ∧
    (main_model env inp out preset dpi gsp).2.filter
        (fun e => !isSpawnEvent e) = [Event.mkdirParent out] := by
  by_cases hv : env.fsExists inp = false ∨ pyLower (pySuffix inp) ≠ ".pdf"
  · have hm : main_model env inp out preset dpi gsp =
        (.error (.systemExit (badInputMsg inp)), [Event.mkdirParent out]) := by
      simp only [main_model]
      rw [if_pos hv]
    rw [hm]
    refine ⟨by simp [isSpawnEvent], by simp, by simp [isSpawnEvent]⟩
  · have hm : main_model env inp out preset dpi gsp =
        ((compress_pdf env inp out preset dpi gsp).1,
         [Event.mkdirParent out] ++
           (compress_pdf env inp out preset dpi gsp).2.map Event.spawn) := by
      simp only [main_model]
      rw [if_neg hv]
    rw [hm]
    rcases hfg : find_gs gsp env with e | gs
    · have hc : compress_pdf env inp out preset dpi gsp = (.error e, []) := by
        simp [compress_pdf, hfg]
      rw [hc]
      refine ⟨by simp [isSpawnEvent], by simp, by simp [isSpawnEvent]⟩
    · rcases hq : QUALITY_MAP (pyLower preset) with _ | tok
      · have hc : compress_pdf env inp out preset dpi gsp =
            (.error (.valueError (unknownPresetMsg preset)), []) := by
          simp [compress_pdf, hfg, hq]
        rw [hc]
        refine ⟨by simp [isSpawnEvent], by simp, by simp [isSpawnEvent]⟩
      · have hsp :=
          compress_pdf_spawns_eq env inp out preset tok gs dpi gsp hfg hq
        rw [hsp]
        refine ⟨by simp [isSpawnEvent], fun _ => by simp [isSpawnEvent],
          by simp [isSpawnEvent]⟩

/-- Witness for C9 (amended) at a fully successful concrete invocation. -/
theorem main_side_effects_witness :
    ((main_model envHappy "doc.pdf" "out.pdf" "ebook" none none).2.filter
        isSpawnEvent).length = 1 ∧
    (main_model envHappy "doc.pdf" "out.pdf" "ebook" none none).2.filter
        (fun e => !isSpawnEvent e) = [Event.mkdirParent "out.pdf"] :=
  ⟨(main_side_effects envHappy "doc.pdf" "out.pdf" "ebook" none none).2.1
      (by decide),
   (main_side_effects envHappy "doc.pdf" "out.pdf" "ebook" none none).2.2⟩
